import Mathlib

/-!
# Verification of the U-KOMI SDK HTTP client normalization layer

A shallow embedding of `src/utils/HttpClient.ts` (response normalizer
`handleResponse`, error translator `handleError`, the four entry points,
and the `setAccessToken` interceptor logic), together with the error
hierarchy of `src/errors/UKomiException.ts`.

JavaScript runtime values are modelled by `JSValue`; JS numbers are
modelled as integers-or-NaN (`JsNum`): every status/error code on this
wire is an integer, and no claim involves fractional values.
-/

/-- A JavaScript number: an integer or NaN (fractional values do not occur
in the modelled code paths). -/
inductive JsNum where
  | int (n : Int)
  | nan
deriving DecidableEq, Repr

/-- A JavaScript/JSON runtime value. Objects are insertion-ordered
association lists of own enumerable properties, as JSON decoding yields. -/
inductive JSValue where
  | vundefined
  | vnull
  | vbool (b : Bool)
  | vnum (n : JsNum)
  | vstr (s : String)
  | vobj (fields : List (String × JSValue))
  | varr (elems : List JSValue)

/-- JavaScript truthiness of a value. -/
def truthy : JSValue → Bool
  | .vundefined => false
  | .vnull => false
  | .vbool b => b
  | .vnum (.int n) => n != 0
  | .vnum .nan => false
  | .vstr s => s != ""
  | .vobj _ => true
  | .varr _ => true

/-- `v` is `null` or `undefined` (the values treated specially by `??`,
`?.` and the normalizer's explicit `!== undefined && !== null` test). -/
def nullish : JSValue → Bool
  | .vundefined => true
  | .vnull => true
  | _ => false

/-- First binding of `key` in an association list (JS objects have unique
keys; lookup returns the property value). -/
def lookupField : List (String × JSValue) → String → Option JSValue
  | [], _ => none
  | (k, v) :: rest, key => if k = key then some v else lookupField rest key

/-- JS property access `v[key]` as used by the client (optional chaining
style: a missing key, or access on a non-object, yields `undefined`). -/
def getField (v : JSValue) (key : String) : JSValue :=
  match v with
  | .vobj fields => (lookupField fields key).getD .vundefined
  | _ => .vundefined

/-- JS property assignment `obj[key] = v`: replaces the value in place if
the key exists, otherwise appends the key at the end (insertion order). -/
def jsSetField : List (String × JSValue) → String → JSValue → List (String × JSValue)
  | [], key, v => [(key, v)]
  | (k, w) :: rest, key, v =>
      if k = key then (k, v) :: rest else (k, w) :: jsSetField rest key v

/-- ASCII decimal digit test. -/
def isDecDigit (c : Char) : Bool := '0'.toNat ≤ c.toNat && c.toNat ≤ '9'.toNat

/-- Whitespace as trimmed by JS string-to-number conversions. -/
def isJsSpace (c : Char) : Bool := c = ' ' || c = '\t' || c = '\n' || c = '\r'

/-- Strip leading and trailing whitespace from a character list. -/
def trimChars (cs : List Char) : List Char :=
  ((cs.dropWhile isJsSpace).reverse.dropWhile isJsSpace).reverse

/-- Optional leading sign: returns the sign factor and the remaining chars. -/
def splitSign : List Char → Int × List Char
  | '-' :: rest => (-1, rest)
  | '+' :: rest => (1, rest)
  | cs => (1, cs)

/-- Value of the longest leading decimal-digit prefix, accumulator style
(stops at the first non-digit, as `parseInt` does). -/
def digitsPrefixVal : Nat → List Char → Nat
  | acc, [] => acc
  | acc, c :: cs =>
      if isDecDigit c then digitsPrefixVal (acc * 10 + (c.toNat - '0'.toNat)) cs else acc

/-- JavaScript `parseInt(s, 10)`: trim whitespace, optional sign, then the
longest decimal-digit prefix; `NaN` when no digit follows. -/
def jsParseInt (s : String) : JsNum :=
  let signAndRest := splitSign (trimChars s.toList)
  match signAndRest.2 with
  | [] => .nan
  | c :: _ =>
      if isDecDigit c then .int (signAndRest.1 * (digitsPrefixVal 0 signAndRest.2 : Int))
      else .nan

/-- Decimal digits of `n` (first argument is recursion fuel). -/
def natDigits : Nat → Nat → List Char
  | 0, _ => []
  | fuel + 1, n =>
      if n < 10 then [Nat.digitChar n]
      else natDigits fuel (n / 10) ++ [Nat.digitChar (n % 10)]

/-- Decimal rendering of a natural number. -/
def natToDecString (n : Nat) : String := String.mk (natDigits (n + 1) n)

/-- JS rendering of an integer (`Number.prototype.toString` on integers). -/
def intToDecString : Int → String
  | .ofNat n => natToDecString n
  | .negSucc m => "-" ++ natToDecString (m + 1)

/-- Rendering of a JS number by string interpolation. -/
def jsNumToString : JsNum → String
  | .int n => intToDecString n
  | .nan => "NaN"

mutual
/-- JavaScript `String(v)` / template-literal interpolation of a value. -/
def jsToString : JSValue → String
  | .vundefined => "undefined"
  | .vnull => "null"
  | .vbool b => cond b "true" "false"
  | .vnum n => jsNumToString n
  | .vstr s => s
  | .vobj _ => "[object Object]"
  | .varr xs => String.intercalate "," (jsToStringElems xs)

/-- `Array.prototype.toString` renders elements comma-separated, with
`null`/`undefined` elements rendered empty. -/
def jsToStringElems : List JSValue → List String
  | [] => []
  | x :: xs =>
      (match x with
       | .vnull => ""
       | .vundefined => ""
       | v => jsToString v) :: jsToStringElems xs
end

/-- Value of an all-digit character list (`none` when a non-digit occurs). -/
def allDigitsVal : Nat → List Char → Option Nat
  | acc, [] => some acc
  | acc, c :: cs =>
      if isDecDigit c then allDigitsVal (acc * 10 + (c.toNat - '0'.toNat)) cs else none

/-- JavaScript `Number(s)` on a string: empty/whitespace is 0, otherwise a
full-string decimal integer parse, else NaN (fractional and hex literals
do not occur on the modelled paths). -/
def jsStringToNumber (s : String) : JsNum :=
  match trimChars s.toList with
  | [] => .int 0
  | cs =>
      let signAndRest := splitSign cs
      match signAndRest.2 with
      | [] => .nan
      | ds =>
          match allDigitsVal 0 ds with
          | some v => .int (signAndRest.1 * v)
          | none => .nan

/-- JavaScript `Number(v)`. Plain objects convert via `ToPrimitive` to
`"[object Object]"` hence NaN; arrays convert via their string form. -/
def jsToNumber : JSValue → JsNum
  | .vundefined => .nan
  | .vnull => .int 0
  | .vbool b => .int (cond b 1 0)
  | .vnum n => n
  | .vstr s => jsStringToNumber s
  | .vobj _ => .nan
  | .varr xs => jsStringToNumber (String.intercalate "," (jsToStringElems xs))

/-- Strict equality `v === 200` (true only for the number 200). -/
def strictEq200 : JSValue → Bool
  | .vnum (.int n) => n == 200
  | _ => false

/-- Strict equality `v === 'OK'` (true only for the exact text "OK"). -/
def strictEqOK : JSValue → Bool
  | .vstr s => s == "OK"
  | _ => false

/-! ## The envelope and the error hierarchy -/

/-- The decoded JSON body of a response (`ApiResponse` in
`src/types/ApiResponse.ts`): a JS object given as its top-level fields. -/
abbrev Envelope := List (String × JSValue)

/-- Top-level field access `envelope.key` (`undefined` when absent). -/
def envField (env : Envelope) (key : String) : JSValue :=
  (lookupField env key).getD .vundefined

/-- The received response attached to an axios transport error:
the raw HTTP status and the decoded body. -/
structure AxiosResponse where
  status : Int
  body : JSValue

/-- A JS `Error` value as the client can encounter it: a generic `Error`,
an axios transport error (`message` property, optional received response,
whether a request object is attached), or one of the SDK's typed
exceptions from `src/errors/UKomiException.ts` (each carries the stored
`message` string and optional `cause`; the API kind also stores `code`,
kept as a raw `JSValue` since JS does not enforce the field's type). -/
inductive JsError where
  | plain (message : String)
  | axios (message : Option String) (response : Option AxiosResponse) (hasRequest : Bool)
  | ukomiBase (message : String) (cause : Option JsError)
  | ukomiApi (code : JSValue) (message : String) (cause : Option JsError)
  | ukomiAuth (message : String) (cause : Option JsError)
  | ukomiNetwork (message : String) (cause : Option JsError)

/-- The `message` property of a JS error value (`undefined` when an axios
error was built without one). -/
def errorMessageVal : JsError → JSValue
  | .plain m => .vstr m
  | .axios m _ _ => (m.map JSValue.vstr).getD .vundefined
  | .ukomiBase m _ => .vstr m
  | .ukomiApi _ m _ => .vstr m
  | .ukomiAuth m _ => .vstr m
  | .ukomiNetwork m _ => .vstr m

/-- What `Error`'s constructor stores as `message`: `String(arg)`, except
that an `undefined` argument leaves the message empty. -/
def storedMessage (v : JSValue) : String :=
  match v with
  | .vundefined => ""
  | v => jsToString v

/-- A caught JS exception: an `Error` instance or an arbitrary thrown value. -/
inductive Caught where
  | err (e : JsError)
  | nonError (v : JSValue)

/-! ## `HttpClient.handleResponse` (the response normalizer) -/

/-- Coercion step of the normalizer:
`typeof response.code === 'string' ? parseInt(response.code, 10) : response.code`. -/
def coerceCode (env : Envelope) : JSValue :=
  match envField env "code" with
  | .vstr s => .vnum (jsParseInt s)
  | v => v

/-- The object-rest destructuring
`const { data: _unusedData, response: _unusedResponse, ...rest } = response`:
all top-level fields except `data` and `response`, in order. -/
def restFields (env : Envelope) : List (String × JSValue) :=
  env.filter fun kv => decide (kv.1 ≠ "data" ∧ kv.1 ≠ "response")

/-- `HttpClient.handleResponse` (src/utils/HttpClient.ts:147-171): coerce
the code, gate on `code === 200 && status === 'OK'`, extract
`data ?? response` when non-nullish, else the rest object when non-empty,
else fail; on a failed gate fail with the coerced code and the envelope's
`message` or a synthesized text. A thrown `UKomiApiException` is the
`Except.error` case. -/
def handleResponse (env : Envelope) : Except JsError JSValue :=
  let code := coerceCode env
  let status := envField env "status"
  if strictEq200 code && strictEqOK status then
    let payload := if nullish (envField env "data") then envField env "response"
                   else envField env "data"
    if !nullish payload then .ok payload
    else
      let rest := restFields env
      if rest.length > 0 then .ok (.vobj rest)
      else .error (.ukomiApi code
        (storedMessage (.vstr "Empty response: no data/response fields and no other payload"))
        none)
  else
    let messageVal :=
      if truthy (envField env "message") then envField env "message"
      else .vstr ("Unexpected response (code: " ++ jsToString code ++
                  ", status: " ++ jsToString status ++ ")")
    .error (.ukomiApi (.vnum (jsToNumber code)) (storedMessage messageVal) none)

/-! ## `HttpClient.handleError` (the error translator) -/

/-- `HttpClient.handleError` (src/utils/HttpClient.ts:176-194). An axios
error with a received response becomes a `UKomiApiException` built from
the body's `code` (string-coerced, falling back to the raw HTTP status
when falsy) and the body's `status` (falling back to the error's message,
then to "Request failed"); an axios error with a request but no response
becomes the fixed network error; anything else becomes a network error
from the caught value's own message ("Unknown error" for non-`Error`
values). Total: the translator always returns, never throws. -/
def handleError (c : Caught) : JsError :=
  match c with
  | .err (.axios msg (some r) _) =>
      let codeF := getField r.body "code"
      let responseCode : JSValue :=
        if truthy codeF then
          match codeF with
          | .vstr s => .vnum (jsParseInt s)
          | v => v
        else .vnum (.int r.status)
      let messageVal : JSValue :=
        if !nullish (getField r.body "status") then getField r.body "status"
        else
          match msg with
          | some m => .vstr m
          | none => .vstr "Request failed"
      .ukomiApi responseCode (storedMessage messageVal) none
  | .err (.axios msg none true) =>
      .ukomiNetwork "Network error: No response received" (some (.axios msg none true))
  | .err e =>
      .ukomiNetwork (storedMessage (errorMessageVal e)) (some e)
  | .nonError _ =>
      .ukomiNetwork "Unknown error" none

/-! ## The four entry points (`get`, `post`, `postFormData`, `postFormUrlEncoded`)

Each entry point builds an outgoing request and runs
`try { await transport; return handleResponse(body) } catch (e) { throw handleError(e) }`.
The transport (axios) is an external collaborator, modelled as a function
from the outgoing request to an outcome. Note that a `UKomiApiException`
thrown by `handleResponse` is raised inside the `try`, so it too passes
through `handleError` before surfacing. -/

/-- Caller-supplied `AxiosRequestConfig` (the fields the client touches). -/
structure AxiosRequestConfig where
  params : Option (List (String × JSValue)) := none
  headers : Option (List (String × JSValue)) := none

/-- The request handed to the transport: method, relative URL, config and
serialized body. -/
structure OutgoingRequest where
  method : String
  url : String
  config : AxiosRequestConfig
  body : JSValue

/-- Outcome of the awaited transport call: a resolved response whose
decoded body is an envelope, or a rejection with a caught value. -/
inductive TransportOutcome where
  | resolved (body : Envelope)
  | rejected (c : Caught)

/-- The shared `try`/`catch` shape of all four entry points. -/
def runRequest (outcome : TransportOutcome) : Except JsError JSValue :=
  match outcome with
  | .resolved body =>
      match handleResponse body with
      | .ok v => .ok v
      | .error e => .error (handleError (.err e))
  | .rejected c => .error (handleError c)

/-- URLSearchParams / `encodeURIComponent`-style safe characters. -/
def isFormSafe (c : Char) : Bool :=
  c.isAlphanum || c = '*' || c = '-' || c = '.' || c = '_'

/-- Hex digit character (uppercase), as percent-encoding emits. -/
def hexDigitChar (n : Nat) : Char :=
  if n < 10 then Char.ofNat ('0'.toNat + n) else Char.ofNat ('A'.toNat + (n - 10))

/-- Percent-encoding of one byte. -/
def percentEncodeByte (b : UInt8) : String :=
  String.mk ['%', hexDigitChar (b.toNat / 16), hexDigitChar (b.toNat % 16)]

/-- `application/x-www-form-urlencoded` encoding of one component
(safe characters kept, space becomes `+`, others percent-encoded UTF-8). -/
def encodeFormComponent (s : String) : String :=
  s.toList.foldl (fun acc c =>
    acc ++ (if isFormSafe c then String.mk [c]
            else if c = ' ' then "+"
            else String.join (((String.mk [c]).toUTF8.toList).map percentEncodeByte))) ""

/-- `new URLSearchParams()` + `append` for each pair + `toString()`. -/
def urlSearchParamsToString (kvs : List (String × String)) : String :=
  String.intercalate "&" (kvs.map fun kv => encodeFormComponent kv.1 ++ "=" ++ encodeFormComponent kv.2)

/-- Header merge `{...config?.headers, 'Content-Type': ct}` (spread of an
absent config yields an empty object; the literal key overrides). -/
def mergeContentType (headers : Option (List (String × JSValue))) (ct : String) :
    List (String × JSValue) :=
  jsSetField (headers.getD []) "Content-Type" (.vstr ct)

/-- `HttpClient.get`: forwards the config unchanged, no body. -/
def get (transport : OutgoingRequest → TransportOutcome) (url : String)
    (config : AxiosRequestConfig) : Except JsError JSValue :=
  runRequest (transport { method := "get", url := url, config := config, body := .vundefined })

/-- `HttpClient.post`: JSON body forwarded as-is, config unchanged. -/
def post (transport : OutgoingRequest → TransportOutcome) (url : String)
    (body : JSValue) (config : AxiosRequestConfig) : Except JsError JSValue :=
  runRequest (transport { method := "post", url := url, config := config, body := body })

/-- `HttpClient.postFormData`: multipart body, content-type header forced
to `multipart/form-data` on top of the caller's headers. -/
def postFormData (transport : OutgoingRequest → TransportOutcome) (url : String)
    (formData : JSValue) (config : AxiosRequestConfig) : Except JsError JSValue :=
  runRequest (transport
    { method := "post", url := url,
      config := { config with
        headers := some (mergeContentType config.headers "multipart/form-data") },
      body := formData })

/-- `HttpClient.postFormUrlEncoded`: the key-value mapping is serialized
with `URLSearchParams`, content-type forced to
`application/x-www-form-urlencoded`. -/
def postFormUrlEncoded (transport : OutgoingRequest → TransportOutcome) (url : String)
    (formEntries : List (String × String)) (config : AxiosRequestConfig) :
    Except JsError JSValue :=
  runRequest (transport
    { method := "post", url := url,
      config := { config with
        headers := some (mergeContentType config.headers "application/x-www-form-urlencoded") },
      body := .vstr (urlSearchParamsToString formEntries) })

/-! ## `HttpClient.setAccessToken` and the request interceptor -/

/-- The axios request-interceptor registry of the client instance. Every
handler ever registered by this class closes over one token, so a
registered handler is represented by that token. -/
abbrev InterceptorState := List String

/-- `setAccessToken`: `interceptors.request.clear()` (drop every handler)
then `interceptors.request.use(...)` (append the one new handler). -/
def setAccessToken (_registered : InterceptorState) (accessToken : String) : InterceptorState :=
  let cleared : InterceptorState := []
  cleared ++ [accessToken]

/-- The axios config seen by a request interceptor at dispatch time. -/
structure DispatchConfig where
  url : String
  params : Option (List (String × JSValue))
  headers : List (String × JSValue)
  body : JSValue

/-- The handler registered by `setAccessToken`: set
`config.params.access_token` when a params object exists, else create
`{ access_token }`; return the config. -/
def runTokenInterceptor (accessToken : String) (config : DispatchConfig) : DispatchConfig :=
  match config.params with
  | some p => { config with params := some (jsSetField p "access_token" (.vstr accessToken)) }
  | none => { config with params := some [("access_token", .vstr accessToken)] }

/-- Run every registered interceptor on a config at dispatch time (axios
executes request interceptors in reverse registration order; with at most
one handler registered the order is immaterial). -/
def applyInterceptors (st : InterceptorState) (config : DispatchConfig) : DispatchConfig :=
  st.foldr runTokenInterceptor config

/-- Query-parameter lookup on a dispatched config (no params object means
no query parameters). -/
def paramValue (config : DispatchConfig) (key : String) : Option JSValue :=
  match config.params with
  | some p => lookupField p key
  | none => none

/-- An error of one of the two kinds every client failure must have
(`UKomiApiException` or `UKomiNetworkException`). -/
def isTypedClientError : JsError → Bool
  | .ukomiApi _ _ _ => true
  | .ukomiNetwork _ _ => true
  | _ => false

/-- A request result surfaces only typed API/network errors on failure. -/
def onlyTypedFailures (r : Except JsError JSValue) : Prop :=
  ∀ e, r = .error e → isTypedClientError e = true

/-- The caught `Error` values that reach the translator's final fallback
return: everything except an axios error with a response or a request. -/
def reachesFallback : JsError → Prop
  | .axios _ response hasRequest => response = none ∧ hasRequest = false
  | _ => True

/-! ## Concrete evaluations (sanity checks of the embedding) -/

example : truthy (.vstr "0") = true := by decide
example : jsParseInt "403" = .int 403 := by decide
example : jsParseInt "  -12abc" = .int (-12) := by decide
example : jsParseInt "abc" = .nan := by decide
example : jsToString (.vnum (jsParseInt "200")) = "200" := by decide

example :
    handleResponse [("status", .vstr "OK"), ("code", .vnum (.int 200)),
                    ("data", .vstr "payload")] = .ok (.vstr "payload") := by
  rfl

example :
    handleResponse [("status", .vstr "FAIL"), ("code", .vstr "403"),
                    ("message", .vstr "forbidden")] =
      .error (.ukomiApi (.vnum (.int 403)) "forbidden" none) := by
  rfl

example :
    handleResponse [("status", .vstr "FAIL"), ("code", .vnum (.int 500))] =
      .error (.ukomiApi (.vnum (.int 500))
        "Unexpected response (code: 500, status: FAIL)" none) := by
  rfl

example :
    handleError (.err (.axios (some "boom")
        (some ⟨503, .vobj [("code", .vstr "401"), ("status", .vstr "Unauthorized")]⟩) true)) =
      .ukomiApi (.vnum (.int 401)) "Unauthorized" none := by
  rfl

example :
    applyInterceptors (setAccessToken (setAccessToken [] "A") "B")
        { url := "u", params := none, headers := [], body := .vundefined } =
      { url := "u", params := some [("access_token", .vstr "B")], headers := [], body := .vundefined } := by
  rfl

/-! ## Supporting lemmas -/

/-- `code === 200` holds exactly for the number 200. -/
lemma strictEq200_iff (v : JSValue) : strictEq200 v = true ↔ v = .vnum (.int 200) := by
  cases v with
  | vnum n =>
      cases n with
      | int m => simp [strictEq200]
      | nan => simp [strictEq200]
  | vundefined => simp [strictEq200]
  | vnull => simp [strictEq200]
  | vbool b => simp [strictEq200]
  | vstr s => simp [strictEq200]
  | vobj f => simp [strictEq200]
  | varr e => simp [strictEq200]

/-- `status === 'OK'` holds exactly for the string "OK". -/
lemma strictEqOK_iff (v : JSValue) : strictEqOK v = true ↔ v = .vstr "OK" := by
  cases v with
  | vstr s => simp [strictEqOK]
  | vundefined => simp [strictEqOK]
  | vnull => simp [strictEqOK]
  | vbool b => simp [strictEqOK]
  | vnum n => simp [strictEqOK]
  | vobj f => simp [strictEqOK]
  | varr e => simp [strictEqOK]

/-- On non-`undefined` arguments the `Error` constructor stores the
`String(...)` conversion of its argument. -/
lemma storedMessage_of_ne_undefined (v : JSValue) (h : v ≠ .vundefined) :
    storedMessage v = jsToString v := by
  cases v with
  | vundefined => exact absurd rfl h
  | vnull => rfl
  | vbool b => rfl
  | vnum n => rfl
  | vstr s => rfl
  | vobj f => rfl
  | varr e => rfl

/-- A truthy value is not `undefined`. -/
lemma truthy_ne_undefined (v : JSValue) (h : truthy v = true) : v ≠ .vundefined := by
  intro hv
  rw [hv] at h
  simp [truthy] at h

/-- Rest destructuring preserves lookups at keys other than
`data`/`response`. -/
lemma lookupField_restFields (l : Envelope) (k : String)
    (hd : k ≠ "data") (hr : k ≠ "response") :
    lookupField (restFields l) k = lookupField l k := by
  induction l with
  | nil => rfl
  | cons kv rest ih =>
      obtain ⟨k', v'⟩ := kv
      by_cases hk : k' = "data" ∨ k' = "response"
      · have hne : k' ≠ k := by
          rcases hk with h1 | h1 <;> simp [h1, hd, hr, Ne.symm]
        have : restFields ((k', v') :: rest) = restFields rest := by
          simp [restFields, List.filter]
          rcases hk with h1 | h1 <;> simp [h1]
        rw [this, ih]
        simp [lookupField, hne]
      · push_neg at hk
        have : restFields ((k', v') :: rest) = (k', v') :: restFields rest := by
          simp [restFields, List.filter, hk.1, hk.2]
        rw [this]
        by_cases hkk : k' = k
        · simp [lookupField, hkk]
        · simp [lookupField, hkk, ih]

/-- Rest destructuring removes the `data` key. -/
lemma lookupField_restFields_data (l : Envelope) :
    lookupField (restFields l) "data" = none := by
  induction l with
  | nil => rfl
  | cons kv rest ih =>
      obtain ⟨k', v'⟩ := kv
      by_cases hk : k' = "data" ∨ k' = "response"
      · have : restFields ((k', v') :: rest) = restFields rest := by
          simp [restFields, List.filter]
          rcases hk with h1 | h1 <;> simp [h1]
        rw [this, ih]
      · push_neg at hk
        have : restFields ((k', v') :: rest) = (k', v') :: restFields rest := by
          simp [restFields, List.filter, hk.1, hk.2]
        rw [this]
        simp [lookupField, hk.1, ih]

/-- Rest destructuring removes the `response` key. -/
lemma lookupField_restFields_response (l : Envelope) :
    lookupField (restFields l) "response" = none := by
  induction l with
  | nil => rfl
  | cons kv rest ih =>
      obtain ⟨k', v'⟩ := kv
      by_cases hk : k' = "data" ∨ k' = "response"
      · have : restFields ((k', v') :: rest) = restFields rest := by
          simp [restFields, List.filter]
          rcases hk with h1 | h1 <;> simp [h1]
        rw [this, ih]
      · push_neg at hk
        have : restFields ((k', v') :: rest) = (k', v') :: restFields rest := by
          simp [restFields, List.filter, hk.1, hk.2]
        rw [this]
        simp [lookupField, hk.2, ih]

/-- A successful strict `status === 'OK'` test means the `status` key is
present, hence the rest object is non-empty. -/
lemma restFields_ne_nil (l : Envelope) (v : JSValue)
    (h : lookupField l "status" = some v) : restFields l ≠ [] := by
  intro hnil
  have h2 : lookupField (restFields l) "status" = some v := by
    rw [lookupField_restFields l "status" (by decide) (by decide)]
    exact h
  rw [hnil] at h2
  simp [lookupField] at h2

/-- Field access returning a non-`undefined` value means the key is bound. -/
lemma lookupField_isSome_of_envField (l : Envelope) (k : String)
    (h : envField l k ≠ .vundefined) : ∃ v, lookupField l k = some v := by
  cases hl : lookupField l k with
  | none =>
      exfalso
      apply h
      simp [envField, hl]
  | some v => exact ⟨v, rfl⟩

/-- Property assignment stores the assigned key. -/
lemma lookupField_jsSetField_self (l : List (String × JSValue)) (k : String) (v : JSValue) :
    lookupField (jsSetField l k v) k = some v := by
  induction l with
  | nil => simp [jsSetField, lookupField]
  | cons kv rest ih =>
      obtain ⟨k', w⟩ := kv
      by_cases hk : k' = k
      · simp [jsSetField, hk, lookupField]
      · simp [jsSetField, hk, lookupField, ih]

/-- Property assignment leaves every other key unchanged. -/
lemma lookupField_jsSetField_other (l : List (String × JSValue)) (k : String) (v : JSValue)
    (k' : String) (h : k' ≠ k) :
    lookupField (jsSetField l k v) k' = lookupField l k' := by
  induction l with
  | nil => simp [jsSetField, lookupField, Ne.symm h]
  | cons kv rest ih =>
      obtain ⟨k0, w⟩ := kv
      by_cases hk : k0 = k
      · subst hk
        simp [jsSetField, lookupField, Ne.symm h]
      · by_cases hk' : k0 = k'
        · simp [jsSetField, hk, lookupField, hk', h]
        · simp [jsSetField, hk, lookupField, hk', ih]

/-- Shape of the normalizer when the success gate passes. -/
lemma handleResponse_gate_true (env : Envelope)
    (hc : coerceCode env = .vnum (.int 200)) (hs : envField env "status" = .vstr "OK") :
    handleResponse env =
      (if !nullish (if nullish (envField env "data") then envField env "response"
                    else envField env "data") then
        .ok (if nullish (envField env "data") then envField env "response"
             else envField env "data")
      else if (restFields env).length > 0 then .ok (.vobj (restFields env))
      else .error (.ukomiApi (.vnum (.int 200))
        "Empty response: no data/response fields and no other payload" none)) := by
  unfold handleResponse
  rw [hc, hs]
  rfl

/-- Shape of the normalizer when the success gate fails. -/
lemma handleResponse_gate_false (env : Envelope)
    (hgate : (strictEq200 (coerceCode env) && strictEqOK (envField env "status")) = false) :
    handleResponse env =
      .error (.ukomiApi (.vnum (jsToNumber (coerceCode env)))
        (storedMessage
          (if truthy (envField env "message") then envField env "message"
           else .vstr ("Unexpected response (code: " ++ jsToString (coerceCode env) ++
                       ", status: " ++ jsToString (envField env "status") ++ ")")))
        none) := by
  unfold handleResponse
  simp only [hgate, Bool.false_eq_true, if_false]

/-- The Bool success gate of the normalizer, in propositional form. -/
lemma gate_eq_true_iff (env : Envelope) :
    (strictEq200 (coerceCode env) && strictEqOK (envField env "status")) = true ↔
      (coerceCode env = .vnum (.int 200) ∧ envField env "status" = .vstr "OK") := by
  rw [Bool.and_eq_true, strictEq200_iff, strictEqOK_iff]

/-- Every value the translator returns is a typed API or network error. -/
lemma handleError_typed (c : Caught) : isTypedClientError (handleError c) = true := by
  match c with
  | .nonError v => rfl
  | .err (.plain m) => rfl
  | .err (.axios m (some r) req) => rfl
  | .err (.axios m none true) => rfl
  | .err (.axios m none false) => rfl
  | .err (.ukomiBase m c') => rfl
  | .err (.ukomiApi cd m c') => rfl
  | .err (.ukomiAuth m c') => rfl
  | .err (.ukomiNetwork m c') => rfl

/-- Every failure produced by the shared `try`/`catch` shape is typed. -/
lemma runRequest_typed (o : TransportOutcome) : onlyTypedFailures (runRequest o) := by
  intro e he
  match o with
  | .rejected c =>
      have : handleError c = e := by
        simpa [runRequest] using he
      rw [← this]
      exact handleError_typed c
  | .resolved body =>
      cases hr : handleResponse body with
      | ok v =>
          rw [runRequest, hr] at he
          cases he
      | error e' =>
          rw [runRequest, hr] at he
          have : handleError (.err e') = e := by
            simpa using he
          rw [← this]
          exact handleError_typed (.err e')

/-- The success gate is boolean-false when its propositional reading fails. -/
lemma gate_eq_false_of_not (env : Envelope)
    (h : ¬(coerceCode env = .vnum (.int 200) ∧ envField env "status" = .vstr "OK")) :
    (strictEq200 (coerceCode env) && strictEqOK (envField env "status")) = false := by
  rcases Bool.eq_false_or_eq_true
      (strictEq200 (coerceCode env) && strictEqOK (envField env "status")) with hb | hb
  · exact absurd ((gate_eq_true_iff env).mp hb) h
  · exact hb

/-- A nonempty fold of `setAccessToken` leaves exactly the rule of the last
call, whatever was registered before. -/
lemma foldl_setAccessToken_eq : ∀ (toks : List String) (init : InterceptorState)
    (h : toks ≠ []), toks.foldl setAccessToken init = [toks.getLast h]
  | [a], _, _ => rfl
  | a :: b :: m, init, _ => by
      rw [List.foldl_cons]
      rw [foldl_setAccessToken_eq (b :: m) (setAccessToken init a) (by simp)]
      rfl

/-! ## The claims -/

/-- C1: for every envelope, `handleResponse` succeeds iff the coerced code
(base-10 parse of a textual `code`, the raw value when numeric) equals 200
and `status` is the exact text "OK"; any other combination produces a
thrown `UKomiApiException`, regardless of any payload-shaped field. -/
theorem normalize_success_iff (env : Envelope) :
    ((∃ v, handleResponse env = .ok v) ↔
      (coerceCode env = .vnum (.int 200) ∧ envField env "status" = .vstr "OK"))
    ∧ (¬(coerceCode env = .vnum (.int 200) ∧ envField env "status" = .vstr "OK") →
        ∃ c m, handleResponse env = .error (.ukomiApi c m none)) := by
  have hfail : ¬(coerceCode env = .vnum (.int 200) ∧ envField env "status" = .vstr "OK") →
      ∃ c m, handleResponse env = .error (.ukomiApi c m none) := by
    intro hnot
    exact ⟨_, _, handleResponse_gate_false env (gate_eq_false_of_not env hnot)⟩
  refine ⟨⟨?_, ?_⟩, hfail⟩
  · rintro ⟨v, hv⟩
    by_contra hnot
    obtain ⟨c, m, he⟩ := hfail hnot
    rw [hv] at he
    cases he
  · rintro ⟨hc, hs⟩
    obtain ⟨w, hw⟩ := lookupField_isSome_of_envField env "status"
      (by rw [hs]; intro hcon; cases hcon)
    have hlen : 0 < (restFields env).length :=
      List.length_pos.mpr (restFields_ne_nil env w hw)
    rw [handleResponse_gate_true env hc hs]
    by_cases hp : nullish (if nullish (envField env "data") then envField env "response"
        else envField env "data") = true
    · simp only [hp, Bool.not_true, Bool.false_eq_true, if_false]
      rw [if_pos hlen]
      exact ⟨_, rfl⟩
    · have hp' : nullish (if nullish (envField env "data") then envField env "response"
          else envField env "data") = false := by
        simpa using hp
      simp only [hp', Bool.not_false, if_true]
      exact ⟨_, rfl⟩

/-- Witness for C1 at a concrete envelope with a string code. -/
theorem normalize_success_iff_witness :
    ((∃ v, handleResponse [("status", .vstr "OK"), ("code", .vstr "200"), ("data", .vstr "X")]
        = .ok v) ↔
      (coerceCode [("status", .vstr "OK"), ("code", .vstr "200"), ("data", .vstr "X")]
          = .vnum (.int 200)
        ∧ envField [("status", .vstr "OK"), ("code", .vstr "200"), ("data", .vstr "X")] "status"
          = .vstr "OK"))
    ∧ (¬(coerceCode [("status", .vstr "OK"), ("code", .vstr "200"), ("data", .vstr "X")]
          = .vnum (.int 200)
        ∧ envField [("status", .vstr "OK"), ("code", .vstr "200"), ("data", .vstr "X")] "status"
          = .vstr "OK") →
        ∃ c m, handleResponse [("status", .vstr "OK"), ("code", .vstr "200"), ("data", .vstr "X")]
          = .error (.ukomiApi c m none)) :=
  normalize_success_iff [("status", .vstr "OK"), ("code", .vstr "200"), ("data", .vstr "X")]

/-- C2: on a successful gate, a non-nullish `data` field is returned
exactly; failing that, a non-nullish `response` field is returned exactly
(`data` takes precedence via `response.data ?? response.response`). -/
theorem normalize_payload_precedence (env : Envelope)
    (hc : coerceCode env = .vnum (.int 200))
    (hs : envField env "status" = .vstr "OK") :
    (nullish (envField env "data") = false →
        handleResponse env = .ok (envField env "data"))
    ∧ (nullish (envField env "data") = true → nullish (envField env "response") = false →
        handleResponse env = .ok (envField env "response")) := by
  constructor
  · intro hd
    rw [handleResponse_gate_true env hc hs]
    simp [hd]
  · intro hd hr
    rw [handleResponse_gate_true env hc hs]
    simp [hd, hr]

/-- Witness for C2: `data` wins over `response` when both are present. -/
theorem normalize_payload_precedence_witness :
    (nullish (envField [("status", .vstr "OK"), ("code", .vnum (.int 200)),
        ("data", .vstr "D"), ("response", .vstr "R")] "data") = false →
      handleResponse [("status", .vstr "OK"), ("code", .vnum (.int 200)),
          ("data", .vstr "D"), ("response", .vstr "R")]
        = .ok (envField [("status", .vstr "OK"), ("code", .vnum (.int 200)),
            ("data", .vstr "D"), ("response", .vstr "R")] "data"))
    ∧ (nullish (envField [("status", .vstr "OK"), ("code", .vnum (.int 200)),
        ("data", .vstr "D"), ("response", .vstr "R")] "data") = true →
      nullish (envField [("status", .vstr "OK"), ("code", .vnum (.int 200)),
        ("data", .vstr "D"), ("response", .vstr "R")] "response") = false →
      handleResponse [("status", .vstr "OK"), ("code", .vnum (.int 200)),
          ("data", .vstr "D"), ("response", .vstr "R")]
        = .ok (envField [("status", .vstr "OK"), ("code", .vnum (.int 200)),
            ("data", .vstr "D"), ("response", .vstr "R")] "response")) :=
  normalize_payload_precedence
    [("status", .vstr "OK"), ("code", .vnum (.int 200)),
     ("data", .vstr "D"), ("response", .vstr "R")] rfl rfl

/-- C3: on a successful gate with `data` and `response` both nullish, the
normalizer returns the object of all remaining top-level fields: the
`data`/`response` keys are excluded and every other field is kept. -/
theorem normalize_rest_payload (env : Envelope)
    (hc : coerceCode env = .vnum (.int 200))
    (hs : envField env "status" = .vstr "OK")
    (hd : nullish (envField env "data") = true)
    (hr : nullish (envField env "response") = true) :
    handleResponse env = .ok (.vobj (restFields env))
    ∧ lookupField (restFields env) "data" = none
    ∧ lookupField (restFields env) "response" = none
    ∧ ∀ k, k ≠ "data" → k ≠ "response" →
        lookupField (restFields env) k = lookupField env k := by
  refine ⟨?_, lookupField_restFields_data env, lookupField_restFields_response env,
    fun k hkd hkr => lookupField_restFields env k hkd hkr⟩
  obtain ⟨w, hw⟩ := lookupField_isSome_of_envField env "status"
    (by rw [hs]; intro hcon; cases hcon)
  have hlen : 0 < (restFields env).length :=
    List.length_pos.mpr (restFields_ne_nil env w hw)
  rw [handleResponse_gate_true env hc hs]
  simp [hd, hr, hlen]

/-- Witness for C3 at the spec's example shape `{status, code, name}`. -/
theorem normalize_rest_payload_witness :
    handleResponse [("status", .vstr "OK"), ("code", .vstr "200"), ("name", .vstr "foo"),
        ("data", .vnull)]
      = .ok (.vobj (restFields [("status", .vstr "OK"), ("code", .vstr "200"),
          ("name", .vstr "foo"), ("data", .vnull)]))
    ∧ lookupField (restFields [("status", .vstr "OK"), ("code", .vstr "200"),
        ("name", .vstr "foo"), ("data", .vnull)]) "data" = none
    ∧ lookupField (restFields [("status", .vstr "OK"), ("code", .vstr "200"),
        ("name", .vstr "foo"), ("data", .vnull)]) "response" = none
    ∧ ∀ k, k ≠ "data" → k ≠ "response" →
        lookupField (restFields [("status", .vstr "OK"), ("code", .vstr "200"),
            ("name", .vstr "foo"), ("data", .vnull)]) k
          = lookupField [("status", .vstr "OK"), ("code", .vstr "200"),
              ("name", .vstr "foo"), ("data", .vnull)] k :=
  normalize_rest_payload
    [("status", .vstr "OK"), ("code", .vstr "200"), ("name", .vstr "foo"), ("data", .vnull)]
    rfl rfl rfl rfl

/-- C4 fails on the code: for the minimal successful envelope
`{status:"OK", code:200}` the normalizer does not throw the
"Empty response" API error (it returns instead). -/
theorem normalize_minimal_envelope_no_throw :
    handleResponse [("status", .vstr "OK"), ("code", .vnum (.int 200))] ≠
      .error (.ukomiApi (.vnum (.int 200))
        "Empty response: no data/response fields and no other payload" none) := by
  intro h
  have h0 : handleResponse [("status", .vstr "OK"), ("code", .vnum (.int 200))] =
      .ok (.vobj [("status", .vstr "OK"), ("code", .vnum (.int 200))]) := rfl
  rw [h0] at h
  cases h

/-- C4 amended: for the envelope `{status:"OK", code:200}` with no other
top-level fields the normalizer returns the rest object
`{status:"OK", code:200}` (the object-rest spread keeps `status` and
`code`, so the remainder is never empty on the success path and the
"Empty response" throw is unreachable). -/
theorem normalize_minimal_envelope_returns_rest :
    handleResponse [("status", .vstr "OK"), ("code", .vnum (.int 200))] =
      .ok (.vobj [("status", .vstr "OK"), ("code", .vnum (.int 200))]) := rfl

/-- C5: whenever the gate fails and the envelope's `code` field is numeric
or textual, the normalizer throws an API error carrying the coerced code
and, as message, the envelope's truthy `message` field, else the
synthesized `Unexpected response (code: <code>, status: <status>)` text
with the coerced code and raw status interpolated. -/
theorem normalize_failure_error (env : Envelope)
    (hcode : (∃ n, envField env "code" = .vnum n) ∨ (∃ s, envField env "code" = .vstr s))
    (hfail : ¬(coerceCode env = .vnum (.int 200) ∧ envField env "status" = .vstr "OK")) :
    handleResponse env =
      .error (.ukomiApi (coerceCode env)
        (if truthy (envField env "message") = true then jsToString (envField env "message")
         else "Unexpected response (code: " ++ jsToString (coerceCode env) ++
              ", status: " ++ jsToString (envField env "status") ++ ")")
        none) := by
  rw [handleResponse_gate_false env (gate_eq_false_of_not env hfail)]
  have hcc : JSValue.vnum (jsToNumber (coerceCode env)) = coerceCode env := by
    rcases hcode with ⟨n, hn⟩ | ⟨s, hsv⟩
    · simp [coerceCode, hn, jsToNumber]
    · simp [coerceCode, hsv, jsToNumber]
  rw [hcc]
  by_cases hm : truthy (envField env "message") = true
  · rw [if_pos hm]
    have hne := truthy_ne_undefined _ hm
    simp [hm, storedMessage_of_ne_undefined _ hne]
  · have hm' : truthy (envField env "message") = false := by simpa using hm
    rw [if_neg hm]
    simp [hm', storedMessage, jsToString]

/-- Witness for C5 at the spec's example `{status:"FAIL", code:"403",
message:"forbidden"}`. -/
theorem normalize_failure_error_witness :
    ((∃ n, envField [("status", .vstr "FAIL"), ("code", .vstr "403"),
        ("message", .vstr "forbidden")] "code" = .vnum n)
      ∨ (∃ s, envField [("status", .vstr "FAIL"), ("code", .vstr "403"),
          ("message", .vstr "forbidden")] "code" = .vstr s))
    ∧ handleResponse [("status", .vstr "FAIL"), ("code", .vstr "403"),
        ("message", .vstr "forbidden")] =
      .error (.ukomiApi (coerceCode [("status", .vstr "FAIL"), ("code", .vstr "403"),
          ("message", .vstr "forbidden")])
        (if truthy (envField [("status", .vstr "FAIL"), ("code", .vstr "403"),
              ("message", .vstr "forbidden")] "message") = true then
          jsToString (envField [("status", .vstr "FAIL"), ("code", .vstr "403"),
              ("message", .vstr "forbidden")] "message")
         else "Unexpected response (code: " ++
              jsToString (coerceCode [("status", .vstr "FAIL"), ("code", .vstr "403"),
                  ("message", .vstr "forbidden")]) ++
              ", status: " ++
              jsToString (envField [("status", .vstr "FAIL"), ("code", .vstr "403"),
                  ("message", .vstr "forbidden")] "status") ++ ")")
        none) :=
  ⟨Or.inr ⟨"403", rfl⟩,
   normalize_failure_error
     [("status", .vstr "FAIL"), ("code", .vstr "403"), ("message", .vstr "forbidden")]
     (Or.inr ⟨"403", rfl⟩)
     (by
       intro hand
       have h2 := hand.2
       rw [show envField [("status", .vstr "FAIL"), ("code", .vstr "403"),
           ("message", .vstr "forbidden")] "status" = .vstr "FAIL" from rfl] at h2
       injection h2 with hstr
       exact absurd hstr (by decide))⟩

/-- C6: for every axios transport error carrying a received response, the
translator returns (it is a total function) a `UKomiApiException` whose
code is the body's `code` — string-coerced to an integer when textual,
used as-is otherwise — when that field is present and truthy, else the
raw HTTP status of the response; and whose message is the body's `status`
field when non-nullish, else the transport error's own message, else the
literal "Request failed". -/
theorem translate_response_error (msgE : Option String) (r : AxiosResponse)
    (hasReq : Bool) :
    ∃ c m, handleError (.err (.axios msgE (some r) hasReq)) = .ukomiApi c m none
      ∧ (truthy (getField r.body "code") = true →
          c = (match getField r.body "code" with
               | .vstr s => .vnum (jsParseInt s)
               | v => v))
      ∧ (truthy (getField r.body "code") = false → c = .vnum (.int r.status))
      ∧ (nullish (getField r.body "status") = false →
          m = storedMessage (getField r.body "status"))
      ∧ (∀ s, getField r.body "status" = .vstr s → m = s)
      ∧ (nullish (getField r.body "status") = true →
          ((∀ t, msgE = some t → m = t) ∧ (msgE = none → m = "Request failed"))) := by
  refine ⟨_, _, rfl, ?_, ?_, ?_, ?_, ?_⟩
  · intro h
    rw [if_pos h]
  · intro h
    rw [if_neg (by simp [h])]
  · intro h
    rw [if_pos (by simp [h])]
  · intro s hsv
    rw [if_pos (by simp [hsv, nullish])]
    simp [hsv, storedMessage, jsToString]
  · intro h
    constructor
    · intro t ht
      rw [if_neg (by simp [h]), ht]
      simp [storedMessage, jsToString]
    · intro hnone
      rw [if_neg (by simp [h]), hnone]
      simp [storedMessage, jsToString]

/-- Witness for C6 at the spec's example body
`{code:"401", status:"Unauthorized"}` received with raw HTTP status 503. -/
theorem translate_response_error_witness :
    ∃ c m, handleError (.err (.axios (some "boom")
        (some ⟨503, .vobj [("code", .vstr "401"), ("status", .vstr "Unauthorized")]⟩ ) true))
      = .ukomiApi c m none
      ∧ (truthy (getField (JSValue.vobj [("code", .vstr "401"),
          ("status", .vstr "Unauthorized")]) "code") = true →
          c = (match getField (JSValue.vobj [("code", .vstr "401"),
              ("status", .vstr "Unauthorized")]) "code" with
               | .vstr s => .vnum (jsParseInt s)
               | v => v))
      ∧ (truthy (getField (JSValue.vobj [("code", .vstr "401"),
          ("status", .vstr "Unauthorized")]) "code") = false →
          c = .vnum (.int 503))
      ∧ (nullish (getField (JSValue.vobj [("code", .vstr "401"),
          ("status", .vstr "Unauthorized")]) "status") = false →
          m = storedMessage (getField (JSValue.vobj [("code", .vstr "401"),
              ("status", .vstr "Unauthorized")]) "status"))
      ∧ (∀ s, getField (JSValue.vobj [("code", .vstr "401"),
          ("status", .vstr "Unauthorized")]) "status" = .vstr s → m = s)
      ∧ (nullish (getField (JSValue.vobj [("code", .vstr "401"),
          ("status", .vstr "Unauthorized")]) "status") = true →
          ((∀ t, (some "boom" : Option String) = some t → m = t)
            ∧ ((some "boom" : Option String) = none → m = "Request failed"))) :=
  translate_response_error (some "boom")
    ⟨503, .vobj [("code", .vstr "401"), ("status", .vstr "Unauthorized")]⟩ true

/-- C7: an axios transport error with a request but no response becomes a
`UKomiNetworkException` with the fixed "Network error: No response
received" message and the original error as cause; every other caught
value reaching the fallback — a non-axios `Error`, or an axios error with
neither response nor request — becomes a `UKomiNetworkException` carrying
that error's own message and the error as cause, and a thrown non-`Error`
value becomes one with message "Unknown error" and no cause. The
translator returns in every case. -/
theorem translate_network_error :
    (∀ m : Option String,
        handleError (.err (.axios m none true)) =
          .ukomiNetwork "Network error: No response received" (some (.axios m none true)))
    ∧ (∀ e : JsError, reachesFallback e →
        handleError (.err e) = .ukomiNetwork (storedMessage (errorMessageVal e)) (some e))
    ∧ (∀ v : JSValue, handleError (.nonError v) = .ukomiNetwork "Unknown error" none) := by
  refine ⟨fun m => rfl, ?_, fun v => rfl⟩
  intro e he
  match e with
  | .plain m => rfl
  | .ukomiBase m c => rfl
  | .ukomiApi cd m c => rfl
  | .ukomiAuth m c => rfl
  | .ukomiNetwork m c => rfl
  | .axios m resp req =>
      obtain ⟨h1, h2⟩ := he
      subst h1
      subst h2
      rfl

/-- Witness for C7: a timeout-shaped axios error, a plain exception, and a
thrown non-`Error` value. -/
theorem translate_network_error_witness :
    handleError (.err (.axios (some "timeout") none true)) =
      .ukomiNetwork "Network error: No response received"
        (some (.axios (some "timeout") none true))
    ∧ handleError (.err (.plain "boom")) =
        .ukomiNetwork (storedMessage (errorMessageVal (.plain "boom"))) (some (.plain "boom"))
    ∧ handleError (.nonError (.vnum (.int 3))) = .ukomiNetwork "Unknown error" none :=
  ⟨translate_network_error.1 (some "timeout"),
   translate_network_error.2.1 (.plain "boom") trivial,
   translate_network_error.2.2 (.vnum (.int 3))⟩

/-- C8: for each of the four entry points, under any transport behavior
and any arguments, a failing result always carries a `UKomiApiException`
or a `UKomiNetworkException` — no other error kind and no untyped value
ever surfaces. -/
theorem entry_points_typed_failures
    (transport : OutgoingRequest → TransportOutcome) (url : String)
    (config : AxiosRequestConfig) (body fd : JSValue)
    (formEntries : List (String × String)) :
    onlyTypedFailures (get transport url config)
    ∧ onlyTypedFailures (post transport url body config)
    ∧ onlyTypedFailures (postFormData transport url fd config)
    ∧ onlyTypedFailures (postFormUrlEncoded transport url formEntries config) :=
  ⟨runRequest_typed _, runRequest_typed _, runRequest_typed _, runRequest_typed _⟩

/-- Witness for C8 under a transport that rejects with a raw thrown value. -/
theorem entry_points_typed_failures_witness :
    onlyTypedFailures (get (fun _ => .rejected (.nonError .vnull)) "a" {})
    ∧ onlyTypedFailures (post (fun _ => .rejected (.nonError .vnull)) "a" .vnull {})
    ∧ onlyTypedFailures (postFormData (fun _ => .rejected (.nonError .vnull)) "a" .vnull {})
    ∧ onlyTypedFailures
        (postFormUrlEncoded (fun _ => .rejected (.nonError .vnull)) "a" [] {}) :=
  entry_points_typed_failures (fun _ => .rejected (.nonError .vnull)) "a" {} .vnull .vnull []

/-- C9: after any nonempty sequence of `setAccessToken` calls from any
starting registry, exactly the one rule for the last token B is
registered; every intermediate state after the first call also has
exactly one rule (clear-then-use is atomic within the synchronous
setter); and a request dispatched through the final registry carries B as
its `access_token` query parameter. -/
theorem set_access_token_single_rule (init : InterceptorState) (toks : List String)
    (h : toks ≠ []) :
    toks.foldl setAccessToken init = [toks.getLast h]
    ∧ (∀ n : ℕ, 0 < n → ((toks.take n).foldl setAccessToken init).length = 1)
    ∧ (∀ config : DispatchConfig,
        paramValue (applyInterceptors (toks.foldl setAccessToken init) config) "access_token"
          = some (.vstr (toks.getLast h))) := by
  refine ⟨foldl_setAccessToken_eq toks init h, ?_, ?_⟩
  · intro n hn
    have htk : toks.take n ≠ [] := by
      cases toks with
      | nil => exact absurd rfl h
      | cons a l =>
          cases n with
          | zero => omega
          | succ k => simp
    rw [foldl_setAccessToken_eq _ init htk]
    rfl
  · intro config
    rw [foldl_setAccessToken_eq toks init h]
    show paramValue (runTokenInterceptor (toks.getLast h) config) "access_token" = _
    cases hp : config.params with
    | none => simp [runTokenInterceptor, hp, paramValue, lookupField]
    | some p => simp [runTokenInterceptor, hp, paramValue, lookupField_jsSetField_self]

/-- Witness for C9: setting token "A" then token "B". -/
theorem set_access_token_single_rule_witness :
    ["A", "B"].foldl setAccessToken [] = [["A", "B"].getLast (by decide)]
    ∧ (∀ n : ℕ, 0 < n → ((["A", "B"].take n).foldl setAccessToken []).length = 1)
    ∧ (∀ config : DispatchConfig,
        paramValue (applyInterceptors (["A", "B"].foldl setAccessToken []) config)
            "access_token"
          = some (.vstr (["A", "B"].getLast (by decide)))) :=
  set_access_token_single_rule [] ["A", "B"] (by decide)

/-- C10: the interceptor installed by `setAccessToken` changes nothing
but the `access_token` query parameter: URL, headers and body are
untouched, every other query parameter keeps its value (including when no
params object existed), and any caller-supplied `access_token` parameter
is overwritten with the installed token. -/
theorem token_interceptor_frame (accessToken : String) (config : DispatchConfig) :
    (runTokenInterceptor accessToken config).url = config.url
    ∧ (runTokenInterceptor accessToken config).headers = config.headers
    ∧ (runTokenInterceptor accessToken config).body = config.body
    ∧ paramValue (runTokenInterceptor accessToken config) "access_token"
        = some (.vstr accessToken)
    ∧ (∀ k, k ≠ "access_token" →
        paramValue (runTokenInterceptor accessToken config) k = paramValue config k) := by
  cases hp : config.params with
  | none =>
      refine ⟨by simp [runTokenInterceptor, hp], by simp [runTokenInterceptor, hp],
        by simp [runTokenInterceptor, hp], ?_, ?_⟩
      · simp [runTokenInterceptor, hp, paramValue, lookupField]
      · intro k hk
        simp [runTokenInterceptor, hp, paramValue, lookupField, Ne.symm hk]
  | some p =>
      refine ⟨by simp [runTokenInterceptor, hp], by simp [runTokenInterceptor, hp],
        by simp [runTokenInterceptor, hp], ?_, ?_⟩
      · simp [runTokenInterceptor, hp, paramValue, lookupField_jsSetField_self]
      · intro k hk
        simp [runTokenInterceptor, hp, paramValue,
          lookupField_jsSetField_other p "access_token" (.vstr accessToken) k hk]

/-- Witness for C10: a config with caller params including a stale
`access_token` and another parameter. -/
theorem token_interceptor_frame_witness :
    (runTokenInterceptor "B"
        (DispatchConfig.mk "u" (some [("q", .vstr "1"), ("access_token", .vstr "A")])
          [("H", .vstr "h")] (.vstr "payload"))).url
      = (DispatchConfig.mk "u" (some [("q", .vstr "1"), ("access_token", .vstr "A")])
          [("H", .vstr "h")] (.vstr "payload")).url
    ∧ (runTokenInterceptor "B"
        (DispatchConfig.mk "u" (some [("q", .vstr "1"), ("access_token", .vstr "A")])
          [("H", .vstr "h")] (.vstr "payload"))).headers
      = (DispatchConfig.mk "u" (some [("q", .vstr "1"), ("access_token", .vstr "A")])
          [("H", .vstr "h")] (.vstr "payload")).headers
    ∧ (runTokenInterceptor "B"
        (DispatchConfig.mk "u" (some [("q", .vstr "1"), ("access_token", .vstr "A")])
          [("H", .vstr "h")] (.vstr "payload"))).body
      = (DispatchConfig.mk "u" (some [("q", .vstr "1"), ("access_token", .vstr "A")])
          [("H", .vstr "h")] (.vstr "payload")).body
    ∧ paramValue (runTokenInterceptor "B"
        (DispatchConfig.mk "u" (some [("q", .vstr "1"), ("access_token", .vstr "A")])
          [("H", .vstr "h")] (.vstr "payload"))) "access_token"
      = some (.vstr "B")
    ∧ (∀ k, k ≠ "access_token" →
        paramValue (runTokenInterceptor "B"
          (DispatchConfig.mk "u" (some [("q", .vstr "1"), ("access_token", .vstr "A")])
            [("H", .vstr "h")] (.vstr "payload"))) k
          = paramValue (DispatchConfig.mk "u"
              (some [("q", .vstr "1"), ("access_token", .vstr "A")])
              [("H", .vstr "h")] (.vstr "payload")) k) :=
  token_interceptor_frame "B"
    (DispatchConfig.mk "u" (some [("q", .vstr "1"), ("access_token", .vstr "A")])
      [("H", .vstr "h")] (.vstr "payload"))
